import Mathlib

/-!
Shallow embedding of the `aleph_nought` library (OAI-PMH harvest client and
Aleph X-Server client) for checking its specification.

Embedded source files:
* `src/aleph_nought/record_status.py` — the `RecordStatus` enum;
* `src/aleph_nought/oai/client.py` — `_build_parse_identifier_pattern`,
  `_list_records_in_set`, `list_records` and the `ListRecordResponse` tuple;
* `src/aleph_nought/x/client.py` — `_search`, `_fetch_results`,
  `find_system_numbers`, `get_one_or_none_system_number`.

Modelling conventions:
* Python strings in identifier matching are `List Char`; elsewhere `String`.
* `MarcRecord` (external `marcdantic` library) is abstract: only the fact
  that `MarcRecord.from_xml` either returns a record or raises matters, so a
  fragment carries the outcome of that call as an `Except`.
* lxml element lookups that may find nothing are `Option`s; an element whose
  `.text` may be `None` is an `Option` inside an `Option`.
* Generators are denoted by the list of values they yield together with the
  terminal outcome (normal exhaustion, raised exception, or a server model
  that ran out of pages), and the HTTP requests they issue are collected in
  a list.
-/

namespace AlephNought

/-- The `RecordStatus` enum from `src/aleph_nought/record_status.py`. -/
inductive RecordStatus where
  | Active
  | Deleted
  | Failed
deriving DecidableEq, Repr

/-- Abstract stand-in for the external `marcdantic.MarcRecord`; its contents
are irrelevant to the client logic. -/
structure MarcRecord where
  tag : Nat
deriving DecidableEq, Repr

/-- The `ListRecordResponse` named tuple from `src/aleph_nought/oai/client.py`.
`base` and `system_number` hold the regex group values; a named group that
did not participate would be Python `None`, hence the `Option`. -/
structure ListRecordResponse where
  base : Option (List Char)
  system_number : Option (List Char)
  status : RecordStatus
  record : Option MarcRecord := none
deriving DecidableEq, Repr

/-! ## Identifier pattern construction (`_build_parse_identifier_pattern`)

The method escapes the template (making every template character a regex
literal) and replaces the escaped `{base}` / `{doc_number}` tokens with the
named capture groups `(?P<base>re.escape(base))` and
`(?P<system_number>system_number_pattern)`.  We model the compiled pattern
as a list of segments: literal characters, the base capture group, and the
system-number capture group.  `re.escape` is semantically the identity on
this representation (it only makes characters literal), so the construction
is the two `str.replace` passes over the segment list. -/

/-- One segment of the compiled identifier pattern. -/
inductive Seg where
  | lit (c : Char)
  | baseG
  | sysG
deriving DecidableEq, Repr

/-- The caller-supplied `system_number_pattern`, restricted to the
fixed-length character-class form actually used for Aleph system numbers
(e.g. `\d{9}` is `⟨9, Char.isDigit⟩`): it matches exactly `len` characters,
each satisfying `cls`. -/
structure SysPat where
  len : Nat
  cls : Char → Bool

/-- Python `str.replace` (all non-overlapping occurrences, left to right)
of a character-token `needle` by the segment `r`, over a segment list whose
literal part is the string being scanned.  Structural recursion on fuel so
that the kernel can evaluate it. -/
def replAllFuel (needle : List Char) (r : Seg) : Nat → List Seg → List Seg
  | _, [] => []
  | 0, l => l
  | fuel + 1, s :: rest =>
    if (needle.map Seg.lit).isPrefixOf (s :: rest) then
      r :: replAllFuel needle r fuel (rest.drop (needle.length - 1))
    else
      s :: replAllFuel needle r fuel rest

/-- Python `str.replace` on the segment representation. -/
def replAll (needle : List Char) (r : Seg) (l : List Seg) : List Seg :=
  replAllFuel needle r l.length l

/-- The `{base}` placeholder token. -/
def baseTok : List Char := ['{', 'b', 'a', 's', 'e', '}']

/-- The `{doc_number}` placeholder token. -/
def docTok : List Char :=
  ['{', 'd', 'o', 'c', '_', 'n', 'u', 'm', 'b', 'e', 'r', '}']

/-- The compiled identifier pattern together with the data its groups need:
the literal `base` string and the system-number sub-pattern. -/
structure IdPattern where
  segs : List Seg
  base : List Char
  sys : SysPat

/-- Method `_build_parse_identifier_pattern(template, base, system_number_pattern)`:
escape the template, replace the escaped `{base}` token by the base capture
group, then the escaped `{doc_number}` token by the system-number capture
group, and compile. -/
def buildParseIdentifierPattern (template : List Char) (base : List Char)
    (sys : SysPat) : IdPattern :=
  { segs := replAll docTok Seg.sysG
      (replAll baseTok Seg.baseG (template.map Seg.lit))
    base := base
    sys := sys }

/-- Match a segment list against a prefix of `s`; on success return the
`base` capture, the `system_number` capture, and the unconsumed suffix.
All segments are of fixed length, so matching is deterministic (no
backtracking), exactly as the Python regex engine behaves on this pattern
shape. -/
def matchSegs (base : List Char) (sp : SysPat) :
    List Seg → List Char → Option (Option (List Char) × Option (List Char) × List Char)
  | [], s => some (none, none, s)
  | Seg.lit _ :: _, [] => none
  | Seg.lit c :: segs, d :: s =>
    if d = c then matchSegs base sp segs s else none
  | Seg.baseG :: segs, s =>
    if base.isPrefixOf s then
      (matchSegs base sp segs (s.drop base.length)).map
        (fun r => (some base, r.2.1, r.2.2))
    else none
  | Seg.sysG :: segs, s =>
    let t := s.take sp.len
    if t.length = sp.len ∧ t.all sp.cls = true then
      (matchSegs base sp segs (s.drop sp.len)).map
        (fun r => (r.1, some t, r.2.2))
    else none

/-- Python `re.Pattern.search`: try to match at position 0, then 1, … and return
the captures of the leftmost match (unanchored; a trailing unconsumed
suffix is allowed). -/
def searchAux (p : IdPattern) : List Char → Option (Option (List Char) × Option (List Char))
  | [] => (matchSegs p.base p.sys p.segs []).map (fun r => (r.1, r.2.1))
  | c :: t =>
    match matchSegs p.base p.sys p.segs (c :: t) with
    | some r => some (r.1, r.2.1)
    | none => searchAux p t

/-! ## OAI-PMH harvest loop (`_list_records_in_set`, `list_records`) -/

/-- The `<header>` element of one harvested record fragment.
`identifierText = none` models a header with no `<identifier>` child
(`header.find(...)` is `None`, so `.text` raises `AttributeError`);
`identifierText = some none` models an `<identifier>` element whose text is
`None`; `status` is the header's `status` attribute. -/
structure OaiHeader where
  identifierText : Option (Option (List Char))
  status : Option String
deriving Repr

/-- One `<record>` fragment of a `ListRecords` page.  `header = none`
models a fragment with no `<header>` element.  `marcParse` is the outcome
of `MarcRecord.from_xml(record_result.find(".//marc:record"))` on this
fragment's body: `.ok` a parsed record, `.error` the exception message
(also covering the body element being absent, where `from_xml(None)`
raises). -/
structure OaiRecordFragment where
  header : Option OaiHeader
  marcParse : Except String MarcRecord
deriving Repr

/-- One server response page for a `ListRecords` request.
`resumptionToken = none`: no `<resumptionToken>` element;
`some none`: element present with `None` text; `some (some t)`: text `t`. -/
structure OaiPage where
  records : List OaiRecordFragment
  resumptionToken : Option (Option String)
deriving Repr

/-- The query parameters of one OAI HTTP request (`None`-valued parameters
are omitted by `requests`, hence `Option`). -/
structure OaiRequest where
  verb : String
  metadataPrefix : Option String := none
  fromDate : Option String := none
  untilDate : Option String := none
  setSpec : Option String := none
  resumptionToken : Option String := none
deriving DecidableEq, Repr

/-- The initial `ListRecords` request of `_list_records_in_set`. -/
def initParams (oaiSet : String) (fromDate toDate : Option String) : OaiRequest :=
  { verb := "ListRecords"
    metadataPrefix := some "marc21"
    fromDate := fromDate
    untilDate := toDate
    setSpec := some oaiSet }

/-- The follow-up request built from a resumption token: only the verb and
the token, no other parameter. -/
def nextTokenRequest (t : String) : OaiRequest :=
  { verb := "ListRecords", resumptionToken := some t }

/-- How the loop terminates: normal exhaustion (`done`), a raised exception
(`error`), or the page model running out while the loop still wanted a next
page (`starved` — an ill-formed server trace). -/
inductive HarvestOutcome where
  | done
  | error (msg : String)
  | starved
deriving DecidableEq, Repr

/-- The body of the `for record_result in records` loop of
`_list_records_in_set`, for one fragment: either the yielded
`ListRecordResponse` or the raised exception's message. -/
def processRecord (p : IdPattern) (f : OaiRecordFragment) :
    Except String ListRecordResponse :=
  match f.header with
  | none => Except.error "Record without header found."
  | some h =>
    match h.identifierText with
    | none =>
      -- `header.find(".//oai:identifier")` is `None`; accessing `.text`
      -- raises `AttributeError` before the `identifier is None` check.
      Except.error "AttributeError: NoneType object has no attribute text"
    | some none => Except.error "Record without identifier found."
    | some (some identifier) =>
      match searchAux p identifier with
      | none =>
        Except.error
          ("Record with invalid identifier found: " ++ String.mk identifier)
      | some (b, y) =>
        if h.status = some "deleted" then
          Except.ok { base := b, system_number := y, status := RecordStatus.Deleted }
        else
          match f.marcParse with
          | Except.ok m =>
            Except.ok { base := b, system_number := y,
                        status := RecordStatus.Active, record := some m }
          | Except.error _ =>
            Except.ok { base := b, system_number := y, status := RecordStatus.Failed }

/-- Run the per-record loop over a page's fragments: the responses yielded
in order, and `some msg` if a fragment raised (aborting the rest of the
page). -/
def processRecords (p : IdPattern) :
    List OaiRecordFragment → List ListRecordResponse × Option String
  | [] => ([], none)
  | f :: fs =>
    match processRecord p f with
    | Except.ok r =>
      let rest := processRecords p fs
      (r :: rest.1, rest.2)
    | Except.error e => ([], some e)

/-- The `while True` pagination loop of `_list_records_in_set`, run against
a list of server pages (the response to the i-th request is the i-th page).
Returns the requests issued, the responses yielded, and the outcome. -/
def runPages (p : IdPattern) (params : OaiRequest) :
    List OaiPage → List OaiRequest × List ListRecordResponse × HarvestOutcome
  | [] => ([params], [], HarvestOutcome.starved)
  | page :: rest =>
    if page.records.isEmpty then
      ([params], [], HarvestOutcome.done)
    else
      match processRecords p page.records with
      | (rs, some e) => ([params], rs, HarvestOutcome.error e)
      | (rs, none) =>
        match page.resumptionToken with
        | some (some t) =>
          if t = "" then ([params], rs, HarvestOutcome.done)
          else
            let r := runPages p (nextTokenRequest t) rest
            (params :: r.1, rs ++ r.2.1, r.2.2)
        | _ => ([params], rs, HarvestOutcome.done)

/-- Method `_list_records_in_set(oai_set, from_date, to_date)` against a server
trace. -/
def list_records_in_set (p : IdPattern) (oaiSet : String)
    (fromDate toDate : Option String) (pages : List OaiPage) :
    List OaiRequest × List ListRecordResponse × HarvestOutcome :=
  runPages p (initParams oaiSet fromDate toDate) pages

/-- Method `list_records(from_date, to_date)`: iterate the configured sets in
order, delegating to `_list_records_in_set`; a raised exception stops the
whole generator.  `server` gives each set's page trace. -/
def list_records (p : IdPattern) (fromDate toDate : Option String)
    (server : String → List OaiPage) :
    List String → List ListRecordResponse × HarvestOutcome
  | [] => ([], HarvestOutcome.done)
  | s :: sets =>
    let r := list_records_in_set p s fromDate toDate (server s)
    match r.2.2 with
    | HarvestOutcome.done =>
      let rest := list_records p fromDate toDate server sets
      (r.2.1 ++ rest.1, rest.2)
    | out => (r.2.1, out)

/-! ## Aleph X-Server client (`src/aleph_nought/x/client.py`) -/

/-- The parts of a `find` (search) response the client reads.
`sessionId` is `content.findtext(".//session-id")` (`none` = absent element,
which `findtext` reports as Python `None`); `h1` likewise for `.//h1`.
`noRecords` models `int(content.findtext(".//no_records") or 0)`: `none`
stands for an absent/empty `no_records` text, which the `or 0` turns into
`0`; `some n` for a text parsing to `n`. -/
structure XSearchResponse where
  sessionId : Option String := none
  h1 : Option String := none
  setNumber : Option String := none
  noRecords : Option Nat := none
deriving Repr

/-- The parts of a `present` (fetch) response the client reads. -/
structure XFetchResponse where
  sessionId : Option String := none
  docNumbers : List String := []
deriving Repr

/-- A server model: the response to the single `find` request of one call,
and the response to a `present` request per `(set_entry)` window. -/
structure XServer where
  searchResp : XSearchResponse
  fetchResp : Nat → Nat → XFetchResponse

/-- The sticky transport state: `self._session.params["session_id"]`.
`requests.Session` merges these params into every subsequent request. -/
structure XState where
  sessionParam : Option String := none
deriving DecidableEq, Repr

/-- One X-Server HTTP request, with the session parameter the
`requests.Session` attaches from its sticky params. -/
inductive XRequest where
  | search (base field value : String)
  | present (sessionId : Option String) (setNumber : Option String)
      (entryStart entryEnd : Nat)
deriving DecidableEq, Repr

/-- Python truthiness of an optional string (`None` and `""` are falsy). -/
def strTruthy : Option String → Bool
  | none => false
  | some s => s ≠ ""

/-- Method `_search(field, value)`: issue the `find` request; if the response has
no non-empty `session-id`, raise `RuntimeError` with the `.//h1` text when
truthy, else `"Unexpected response"`.  Otherwise store the session id in
the sticky session params and return `(set_number, no_records)`. -/
def xSearch (base field value : String) (server : XServer) :
    List XRequest × Except String (XState × Option String × Nat) :=
  let resp := server.searchResp
  ([XRequest.search base field value],
    if strTruthy resp.sessionId then
      Except.ok ({ sessionParam := resp.sessionId },
        resp.setNumber, resp.noRecords.getD 0)
    else
      Except.error (match resp.h1 with
        | some s => if s = "" then "Unexpected response" else s
        | none => "Unexpected response"))

/-- Method `_fetch_results(set_number, page_start, page_end)`: issue the `present`
request (carrying the sticky session param), overwrite the sticky session
param with the response's `session-id`, and yield the `doc_number` texts. -/
def fetch_results (server : XServer) (st : XState) (setNumber : Option String)
    (pageStart pageEnd : Nat) : XRequest × XState × List String :=
  let resp := server.fetchResp pageStart pageEnd
  (XRequest.present st.sessionParam setNumber pageStart pageEnd,
    { sessionParam := resp.sessionId },
    resp.docNumbers)

/-- Python `range(start, stop, step)` for a positive step. -/
def pythonRange (start stop step : Nat) : List Nat :=
  (List.range ((stop - start + step - 1) / step)).map (fun i => start + i * step)

/-- The fetch windows of `find_system_numbers`:
`for page in range(0, no_records, page_size)` with window
`(page + 1, min(page + page_size, no_records))`. -/
def fetchWindows (pageSize noRecords : Nat) : List (Nat × Nat) :=
  (pythonRange 0 noRecords pageSize).map
    (fun page => (page + 1, min (page + pageSize) noRecords))

/-- Fold of the fetch loop: thread the session state through the windows,
collecting requests and yielded system numbers. -/
def fetchLoop (server : XServer) (setNumber : Option String) :
    List (Nat × Nat) → XState → List XRequest × XState × List String
  | [], st => ([], st, [])
  | w :: ws, st =>
    let r := fetch_results server st setNumber w.1 w.2
    let rest := fetchLoop server setNumber ws r.2.1
    (r.1 :: rest.1, rest.2.1, r.2.2 ++ rest.2.2)

/-- Method `find_system_numbers(field, value)`: search, then fetch each window in
order, yielding the fetched system numbers.  Returns the requests issued
and either the raised error or the yielded numbers. -/
def find_system_numbers (pageSize : Nat) (base field value : String)
    (server : XServer) : List XRequest × Except String (List String) :=
  match xSearch base field value server with
  | (reqs, Except.error e) => (reqs, Except.error e)
  | (reqs, Except.ok (st, setNumber, noRecords)) =>
    let r := fetchLoop server setNumber (fetchWindows pageSize noRecords) st
    (reqs ++ r.1, Except.ok r.2.2)

/-- Method `get_one_or_none_system_number(field, value)`: search; if
`no_records != 1` return `None` without fetching; otherwise fetch window
`(1, 1)` and return `results[0] if results else None`. -/
def get_one_or_none_system_number (base field value : String)
    (server : XServer) : List XRequest × Except String (Option String) :=
  match xSearch base field value server with
  | (reqs, Except.error e) => (reqs, Except.error e)
  | (reqs, Except.ok (st, setNumber, noRecords)) =>
    if noRecords ≠ 1 then (reqs, Except.ok none)
    else
      let r := fetch_results server st setNumber 1 1
      (reqs ++ [r.1], Except.ok r.2.2.head?)

/-! ## Spec-side helper definitions used by the theorems -/

/-- The resumption-token text of a page as the loop reads it
(`resumption_token.text`, with absent element/text collapsing to `""`). -/
def pageToken (pg : OaiPage) : String :=
  (pg.resumptionToken.getD none).getD ""

/-- A page on which the loop continues: non-empty record list, no raised
exception while processing, and a truthy resumption token. -/
abbrev contPage (p : IdPattern) (pg : OaiPage) : Prop :=
  pg.records.isEmpty = false ∧ (processRecords p pg.records).2 = none ∧
    strTruthy (pg.resumptionToken.getD none) = true

/-- A falsy resumption token (absent element, `None` text, or empty text). -/
abbrev tokenDone (pg : OaiPage) : Prop :=
  strTruthy (pg.resumptionToken.getD none) = false

/-- A page on which the loop terminates normally: either it has no record
fragments (stop before processing), or it processes without error and its
resumption token is falsy. -/
abbrev termPage (p : IdPattern) (pg : OaiPage) : Prop :=
  pg.records.isEmpty = true ∨
    ((processRecords p pg.records).2 = none ∧ tokenDone pg)

/-- What a page contributes to the yielded sequence: nothing if the loop
stopped on it for being empty, otherwise its processed records. -/
def pageYield (p : IdPattern) (pg : OaiPage) : List ListRecordResponse :=
  if pg.records.isEmpty then [] else (processRecords p pg.records).1

/-- The `(set_entry)` window of a `present` request, `none` for a `find`
request. -/
def presentWindow : XRequest → Option (Nat × Nat)
  | XRequest.present _ _ a b => some (a, b)
  | XRequest.search _ _ _ => none

/-! ## Concrete sample data shared by the witness theorems -/

/-- The spec's example pattern: template `oai:example.org:{base}-{doc_number}`,
base `MZK01`, system-number pattern `\\d{9}`. -/
def samplePat : IdPattern :=
  buildParseIdentifierPattern
    ("oai:example.org:".data ++ baseTok ++ "-".data ++ docTok)
    "MZK01".data ⟨9, Char.isDigit⟩

/-- A well-formed active record fragment. -/
def sampleFrag : OaiRecordFragment :=
  ⟨some ⟨some (some "oai:example.org:MZK01-000960080".data), none⟩,
    Except.ok ⟨1⟩⟩

/-- A continuing page: one good record, truthy resumption token. -/
def samplePage1 : OaiPage := ⟨[sampleFrag], some (some "tok1")⟩

/-- A terminal page with an empty batch. -/
def sampleTermPage : OaiPage := ⟨[], none⟩

/-! ## Lemmas about `replAll` (Python `str.replace` on segment lists) -/

theorem replAllFuel_congr (needle : List Char) (r : Seg) :
    ∀ (f g : Nat) (l : List Seg), l.length ≤ f → l.length ≤ g →
      replAllFuel needle r f l = replAllFuel needle r g l := by
  intro f
  induction f with
  | zero =>
    intro g l hf _
    have hl : l = [] := List.eq_nil_of_length_eq_zero (Nat.le_zero.mp hf)
    subst hl
    cases g <;> rfl
  | succ f ih =>
    intro g l hf hg
    match l with
    | [] => cases g <;> rfl
    | s :: rest =>
      match g with
      | 0 => simp at hg
      | g + 1 =>
        simp only [List.length_cons, Nat.add_le_add_iff_right] at hf hg
        simp only [replAllFuel]
        split
        · have hdrop : (rest.drop (needle.length - 1)).length ≤ rest.length := by
            simp [List.length_drop]
          exact congrArg _ (ih g _ (le_trans hdrop hf) (le_trans hdrop hg))
        · exact congrArg _ (ih g rest hf hg)

theorem replAll_nil (needle : List Char) (r : Seg) : replAll needle r [] = [] := rfl

theorem replAll_cons_nomatch (needle : List Char) (r : Seg) (s : Seg)
    (rest : List Seg) (h : (needle.map Seg.lit).isPrefixOf (s :: rest) = false) :
    replAll needle r (s :: rest) = s :: replAll needle r rest := by
  show replAllFuel needle r (s :: rest).length (s :: rest) = _
  simp only [List.length_cons, replAllFuel, h, Bool.false_eq_true, if_false]
  rfl

theorem replAll_cons_match (n0 : Char) (nt : List Char) (r : Seg) (s : Seg)
    (rest : List Seg)
    (h : (((n0 :: nt)).map Seg.lit).isPrefixOf (s :: rest) = true) :
    replAll (n0 :: nt) r (s :: rest) =
      r :: replAll (n0 :: nt) r (rest.drop nt.length) := by
  show replAllFuel (n0 :: nt) r (s :: rest).length (s :: rest) = _
  simp only [List.length_cons, replAllFuel, h, if_true, Nat.add_sub_cancel]
  exact congrArg _ (replAllFuel_congr _ _ _ _ _
    (by simp [List.length_drop]) (le_refl _))

theorem replAll_cons_ne (n0 : Char) (nt : List Char) (r : Seg) (c : Char)
    (rest : List Seg) (h : c ≠ n0) :
    replAll (n0 :: nt) r (Seg.lit c :: rest) =
      Seg.lit c :: replAll (n0 :: nt) r rest := by
  apply replAll_cons_nomatch
  rw [Bool.eq_false_iff]
  intro hb
  rcases List.isPrefixOf_iff_prefix.mp hb with ⟨t, ht⟩
  simp only [List.map_cons, List.cons_append, List.cons.injEq, Seg.lit.injEq] at ht
  exact h ht.1.symm

theorem replAll_seg_skip (n0 : Char) (nt : List Char) (r : Seg) (s : Seg)
    (hs : ∀ c, s ≠ Seg.lit c) (rest : List Seg) :
    replAll (n0 :: nt) r (s :: rest) = s :: replAll (n0 :: nt) r rest := by
  apply replAll_cons_nomatch
  rw [Bool.eq_false_iff]
  intro hb
  rcases List.isPrefixOf_iff_prefix.mp hb with ⟨t, ht⟩
  simp only [List.map_cons, List.cons_append, List.cons.injEq] at ht
  exact hs n0 ht.1.symm

theorem replAll_tok (n0 : Char) (nt : List Char) (r : Seg) (rest : List Seg) :
    replAll (n0 :: nt) r ((n0 :: nt).map Seg.lit ++ rest) =
      r :: replAll (n0 :: nt) r rest := by
  have hpre : (((n0 :: nt)).map Seg.lit).isPrefixOf
      (Seg.lit n0 :: (nt.map Seg.lit ++ rest)) = true := by
    apply List.isPrefixOf_iff_prefix.mpr
    have h := List.prefix_append ((n0 :: nt).map Seg.lit) rest
    simp only [List.map_cons, List.cons_append] at h
    exact h
  have hstep := replAll_cons_match n0 nt r (Seg.lit n0) (nt.map Seg.lit ++ rest) hpre
  simp only [List.map_cons, List.cons_append]
  rw [hstep]
  congr 1
  congr 1
  rw [← List.length_map nt Seg.lit, List.drop_left]

theorem replAll_lit_run (n0 : Char) (nt : List Char) (r : Seg) (l : List Char)
    (hl : ∀ c ∈ l, c ≠ n0) (rest : List Seg) :
    replAll (n0 :: nt) r (l.map Seg.lit ++ rest) =
      l.map Seg.lit ++ replAll (n0 :: nt) r rest := by
  induction l with
  | nil => simp
  | cons c l ih =>
    simp only [List.map_cons, List.cons_append]
    rw [replAll_cons_ne n0 nt r c _ (hl c (List.mem_cons_self c l))]
    rw [ih (fun d hd => hl d (List.mem_cons_of_mem c hd))]

theorem replAll_base_lit_run (r : Seg) (l : List Char) (hl : ∀ c ∈ l, c ≠ '{')
    (rest : List Seg) :
    replAll baseTok r (l.map Seg.lit ++ rest) =
      l.map Seg.lit ++ replAll baseTok r rest :=
  replAll_lit_run '{' ['b', 'a', 's', 'e', '}'] r l hl rest

theorem replAll_doc_lit_run (r : Seg) (l : List Char) (hl : ∀ c ∈ l, c ≠ '{')
    (rest : List Seg) :
    replAll docTok r (l.map Seg.lit ++ rest) =
      l.map Seg.lit ++ replAll docTok r rest :=
  replAll_lit_run '{' ['d', 'o', 'c', '_', 'n', 'u', 'm', 'b', 'e', 'r', '}']
    r l hl rest

theorem replAll_base_tok (r : Seg) (rest : List Seg) :
    replAll baseTok r (baseTok.map Seg.lit ++ rest) =
      r :: replAll baseTok r rest :=
  replAll_tok '{' ['b', 'a', 's', 'e', '}'] r rest

theorem replAll_doc_tok (r : Seg) (rest : List Seg) :
    replAll docTok r (docTok.map Seg.lit ++ rest) =
      r :: replAll docTok r rest :=
  replAll_tok '{' ['d', 'o', 'c', '_', 'n', 'u', 'm', 'b', 'e', 'r', '}'] r rest

theorem replAll_doc_baseG_skip (rest : List Seg) :
    replAll docTok Seg.sysG (Seg.baseG :: rest) =
      Seg.baseG :: replAll docTok Seg.sysG rest :=
  replAll_seg_skip '{' ['d', 'o', 'c', '_', 'n', 'u', 'm', 'b', 'e', 'r', '}']
    Seg.sysG Seg.baseG (fun c h => by cases h) rest

/-- The first replacement pass leaves the `{doc_number}` token untouched:
`{base}` does not occur inside it. -/
theorem replAll_doc_skip (r : Seg) (rest : List Seg) :
    replAll baseTok r (docTok.map Seg.lit ++ rest) =
      docTok.map Seg.lit ++ replAll baseTok r rest := by
  have h0 : (baseTok.map Seg.lit).isPrefixOf
      (Seg.lit '{' :: (['d', 'o', 'c', '_', 'n', 'u', 'm', 'b', 'e', 'r', '}'].map
        Seg.lit ++ rest)) = false := by
    rw [Bool.eq_false_iff]
    intro hb
    rcases List.isPrefixOf_iff_prefix.mp hb with ⟨t, ht⟩
    simp only [baseTok, List.map_cons, List.cons_append, List.cons.injEq,
      Seg.lit.injEq, List.map_nil] at ht
    exact absurd ht.2.1 (by decide)
  have h1 := replAll_cons_nomatch baseTok r (Seg.lit '{')
    (['d', 'o', 'c', '_', 'n', 'u', 'm', 'b', 'e', 'r', '}'].map Seg.lit ++ rest) h0
  have h2 := replAll_base_lit_run r
    ['d', 'o', 'c', '_', 'n', 'u', 'm', 'b', 'e', 'r', '}'] (by decide) rest
  simp only [docTok, List.map_cons, List.map_nil, List.cons_append,
    List.nil_append] at h1 h2 ⊢
  rw [h1, h2]

/-- Construction of the identifier pattern on a well-formed template
`pre ++ "{base}" ++ mid ++ "{doc_number}" ++ post` whose literal parts
contain no brace: every literal character gives a literal segment and the
two placeholders give exactly the two capture groups. -/
theorem build_segs (pre mid post : List Char) (base : List Char) (sp : SysPat)
    (hpre : ∀ c ∈ pre, c ≠ '{') (hmid : ∀ c ∈ mid, c ≠ '{')
    (hpost : ∀ c ∈ post, c ≠ '{') :
    (buildParseIdentifierPattern (pre ++ baseTok ++ mid ++ docTok ++ post)
        base sp).segs =
      pre.map Seg.lit ++ Seg.baseG ::
        (mid.map Seg.lit ++ Seg.sysG :: post.map Seg.lit) := by
  have pass1 : replAll baseTok Seg.baseG
      ((pre ++ baseTok ++ mid ++ docTok ++ post).map Seg.lit) =
      pre.map Seg.lit ++ Seg.baseG ::
        (mid.map Seg.lit ++ (docTok.map Seg.lit ++ post.map Seg.lit)) := by
    simp only [List.map_append, List.append_assoc]
    rw [replAll_base_lit_run Seg.baseG pre hpre]
    rw [replAll_base_tok]
    rw [replAll_base_lit_run Seg.baseG mid hmid]
    rw [replAll_doc_skip]
    rw [show (post.map Seg.lit : List Seg) = post.map Seg.lit ++ [] by
      rw [List.append_nil]]
    rw [replAll_base_lit_run Seg.baseG post hpost, replAll_nil, List.append_nil]
  have pass2 : replAll docTok Seg.sysG
      (pre.map Seg.lit ++ Seg.baseG ::
        (mid.map Seg.lit ++ (docTok.map Seg.lit ++ post.map Seg.lit))) =
      pre.map Seg.lit ++ Seg.baseG ::
        (mid.map Seg.lit ++ Seg.sysG :: post.map Seg.lit) := by
    rw [replAll_doc_lit_run Seg.sysG pre hpre]
    rw [replAll_doc_baseG_skip]
    rw [replAll_doc_lit_run Seg.sysG mid hmid]
    rw [replAll_doc_tok]
    rw [show (post.map Seg.lit : List Seg) = post.map Seg.lit ++ [] by
      rw [List.append_nil]]
    rw [replAll_doc_lit_run Seg.sysG post hpost, replAll_nil, List.append_nil]
  show replAll docTok Seg.sysG (replAll baseTok Seg.baseG _) = _
  rw [pass1, pass2]

/-! ## Lemmas about `matchSegs` (the deterministic fixed-length matcher) -/

theorem isPrefixOf_append_self {α : Type} [BEq α] [LawfulBEq α]
    (l t : List α) : l.isPrefixOf (l ++ t) = true :=
  List.isPrefixOf_iff_prefix.mpr (List.prefix_append l t)

theorem eq_append_drop_of_isPrefixOf {α : Type} [BEq α] [LawfulBEq α]
    {l s : List α} (h : l.isPrefixOf s = true) :
    s = l ++ s.drop l.length := by
  rcases List.isPrefixOf_iff_prefix.mp h with ⟨t, ht⟩
  subst ht
  rw [List.drop_left]

theorem matchSegs_litRun (base : List Char) (sp : SysPat) (l : List Char)
    (segs : List Seg) (s : List Char) :
    matchSegs base sp (l.map Seg.lit ++ segs) (l ++ s) =
      matchSegs base sp segs s := by
  induction l with
  | nil => simp
  | cons c l ih => simp [matchSegs, ih]

theorem matchSegs_baseG (base : List Char) (sp : SysPat) (segs : List Seg)
    (s : List Char) :
    matchSegs base sp (Seg.baseG :: segs) (base ++ s) =
      (matchSegs base sp segs s).map (fun r => (some base, r.2.1, r.2.2)) := by
  simp [matchSegs, isPrefixOf_append_self, List.drop_left]

theorem matchSegs_sysG (base : List Char) (sp : SysPat) (segs : List Seg)
    {s : List Char} (hs : s.length = sp.len) (hc : s.all sp.cls = true)
    (t : List Char) :
    matchSegs base sp (Seg.sysG :: segs) (s ++ t) =
      (matchSegs base sp segs t).map (fun r => (r.1, some s, r.2.2)) := by
  have htake : (s ++ t).take sp.len = s := by
    rw [← hs, List.take_left]
  have hdrop : (s ++ t).drop sp.len = t := by
    rw [← hs, List.drop_left]
  simp only [matchSegs, htake, hdrop]
  rw [if_pos ⟨hs, hc⟩]

theorem matchSegs_litRun_inv (base : List Char) (sp : SysPat) (l : List Char)
    (segs : List Seg) :
    ∀ (ident : List Char) (r : Option (List Char) × Option (List Char) × List Char),
      matchSegs base sp (l.map Seg.lit ++ segs) ident = some r →
      ∃ s, ident = l ++ s ∧ matchSegs base sp segs s = some r := by
  induction l with
  | nil => intro ident r h; exact ⟨ident, rfl, h⟩
  | cons c l ih =>
    intro ident r h
    match ident with
    | [] => simp [matchSegs] at h
    | d :: s' =>
      simp only [List.map_cons, List.cons_append, matchSegs] at h
      split at h
      · rename_i hdc
        subst hdc
        rcases ih s' r h with ⟨s, hs, hm⟩
        exact ⟨s, by rw [hs, List.cons_append], hm⟩
      · exact absurd h (by simp)

theorem matchSegs_baseG_inv (base : List Char) (sp : SysPat) (segs : List Seg)
    (ident : List Char) (r : Option (List Char) × Option (List Char) × List Char)
    (h : matchSegs base sp (Seg.baseG :: segs) ident = some r) :
    ∃ s r', ident = base ++ s ∧ matchSegs base sp segs s = some r' ∧
      r = (some base, r'.2.1, r'.2.2) := by
  have hpre : base.isPrefixOf ident = true := by
    by_contra hn
    rw [Bool.not_eq_true] at hn
    simp [matchSegs, hn] at h
  have hdec := eq_append_drop_of_isPrefixOf hpre
  rw [hdec, matchSegs_baseG] at h
  rcases Option.map_eq_some'.mp h with ⟨r', hr', hfr⟩
  exact ⟨ident.drop base.length, r', hdec, hr', hfr.symm⟩

theorem matchSegs_sysG_inv (base : List Char) (sp : SysPat) (segs : List Seg)
    (ident : List Char) (r : Option (List Char) × Option (List Char) × List Char)
    (h : matchSegs base sp (Seg.sysG :: segs) ident = some r) :
    ∃ s t r', ident = s ++ t ∧ s.length = sp.len ∧ s.all sp.cls = true ∧
      matchSegs base sp segs t = some r' ∧ r = (r'.1, some s, r'.2.2) := by
  have hcond : (ident.take sp.len).length = sp.len ∧
      (ident.take sp.len).all sp.cls = true := by
    by_contra hn
    simp only [matchSegs, if_neg hn] at h
    exact absurd h (by simp)
  have hdec : ident = ident.take sp.len ++ ident.drop sp.len :=
    (List.take_append_drop sp.len ident).symm
  rw [hdec, matchSegs_sysG base sp segs hcond.1 hcond.2] at h
  rcases Option.map_eq_some'.mp h with ⟨r', hr', hfr⟩
  exact ⟨ident.take sp.len, ident.drop sp.len, r', hdec, hcond.1, hcond.2,
    hr', hfr.symm⟩

theorem matchSegs_append_right (base : List Char) (sp : SysPat) :
    ∀ (segs : List Seg) (s k : List Char)
      (b y : Option (List Char)) (rest : List Char),
      matchSegs base sp segs s = some (b, y, rest) →
      matchSegs base sp segs (s ++ k) = some (b, y, rest ++ k) := by
  intro segs
  induction segs with
  | nil =>
    intro s k b y rest h
    simp only [matchSegs, Option.some.injEq] at h ⊢
    obtain ⟨hb, hy, hr⟩ := Prod.mk.injEq .. ▸ h
    simp_all [matchSegs]
  | cons sg segs ih =>
    intro s k b y rest h
    match sg with
    | Seg.lit c =>
      match s with
      | [] => simp [matchSegs] at h
      | d :: s' =>
        simp only [matchSegs] at h
        split at h
        · rename_i hdc
          subst hdc
          simpa [matchSegs] using ih s' k b y rest h
        · exact absurd h (by simp)
    | Seg.baseG =>
      rcases matchSegs_baseG_inv base sp segs s (b, y, rest) h
        with ⟨t, r', hdec, hr', hfr⟩
      subst hdec
      rw [List.append_assoc, matchSegs_baseG]
      have := ih t k r'.1 r'.2.1 r'.2.2 (by
        rw [hr'])
      rw [this]
      simp only [Option.map_some']
      obtain ⟨hb, hy, hr⟩ := Prod.mk.injEq .. ▸ hfr
      simp_all
    | Seg.sysG =>
      rcases matchSegs_sysG_inv base sp segs s (b, y, rest) h
        with ⟨u, t, r', hdec, hu, hcls, hr', hfr⟩
      subst hdec
      rw [List.append_assoc, matchSegs_sysG base sp segs hu hcls]
      have := ih t k r'.1 r'.2.1 r'.2.2 (by rw [hr'])
      rw [this]
      simp only [Option.map_some']
      obtain ⟨hb, hy, hr⟩ := Prod.mk.injEq .. ▸ hfr
      simp_all

theorem matchSegs_litAll (base : List Char) (sp : SysPat) (l : List Char) :
    matchSegs base sp (l.map Seg.lit) l = some (none, none, []) := by
  have h := matchSegs_litRun base sp l [] []
  simp only [List.append_nil] at h
  rw [h]
  rfl

/-- Matching the substituted template against the identifier built by
substituting `base` and a conforming system number `s` succeeds, consumes
the whole identifier, and captures exactly `base` and `s`. -/
theorem matchSegs_template (pre mid post base s : List Char) (sp : SysPat)
    (hs : s.length = sp.len) (hc : s.all sp.cls = true) :
    matchSegs base sp
      (pre.map Seg.lit ++ Seg.baseG ::
        (mid.map Seg.lit ++ Seg.sysG :: post.map Seg.lit))
      (pre ++ (base ++ (mid ++ (s ++ post)))) =
      some (some base, some s, []) := by
  rw [show pre.map Seg.lit ++ Seg.baseG ::
      (mid.map Seg.lit ++ Seg.sysG :: post.map Seg.lit) =
      pre.map Seg.lit ++ (Seg.baseG ::
        (mid.map Seg.lit ++ Seg.sysG :: post.map Seg.lit)) from rfl]
  rw [matchSegs_litRun, matchSegs_baseG, matchSegs_litRun,
    matchSegs_sysG base sp _ hs hc, matchSegs_litAll]
  rfl

/-- Conversely, every identifier the substituted template matches in full
decomposes as `pre ++ base ++ mid ++ s ++ post` for a conforming system
number `s`, and the captures are exactly `base` and `s`. -/
theorem matchSegs_template_inv (pre mid post base ident : List Char)
    (sp : SysPat) (b y : Option (List Char))
    (h : matchSegs base sp
      (pre.map Seg.lit ++ Seg.baseG ::
        (mid.map Seg.lit ++ Seg.sysG :: post.map Seg.lit)) ident =
      some (b, y, [])) :
    ∃ s, ident = pre ++ (base ++ (mid ++ (s ++ post))) ∧
      b = some base ∧ y = some s ∧ s.length = sp.len ∧ s.all sp.cls = true := by
  rcases matchSegs_litRun_inv base sp pre _ ident _ h with ⟨t1, hident, h1⟩
  rcases matchSegs_baseG_inv base sp _ t1 _ h1 with ⟨t2, r', ht1, h2, hfr⟩
  rcases matchSegs_litRun_inv base sp mid _ t2 _ h2 with ⟨t3, ht2, h3⟩
  rcases matchSegs_sysG_inv base sp _ t3 _ h3
    with ⟨u, t4, r'', ht3, hu, hcls, h4, hfr2⟩
  have h4' : matchSegs base sp (post.map Seg.lit ++ []) t4 = some r'' := by
    simpa using h4
  rcases matchSegs_litRun_inv base sp post [] t4 _ h4' with ⟨t5, ht4, h5⟩
  have hr'' : r'' = (none, none, t5) := by
    simpa [matchSegs] using h5.symm
  have hbyr : b = some base ∧ y = r'.2.1 ∧ r'.2.2 = [] := by
    have := hfr
    rw [Prod.ext_iff] at this
    rcases this with ⟨hb, hyr⟩
    rw [Prod.ext_iff] at hyr
    exact ⟨hb, hyr.1, hyr.2.symm⟩
  have hr' : r'.2.1 = some u ∧ r'.2.2 = r''.2.2 := by
    rw [hfr2]
    exact ⟨rfl, rfl⟩
  refine ⟨u, ?_, hbyr.1, ?_, hu, hcls⟩
  · have ht5 : t5 = [] := by
      have := hbyr.2.2
      rw [hr'.2, hr''] at this
      exact this
    rw [hident, ht1, ht2, ht3, ht4, ht5, List.append_nil]
  · rw [hbyr.2.1, hr'.1]

/-! ## Lemmas about `searchAux` (Python `re.search` semantics) -/

/-- If the substituted template matches somewhere inside the identifier
(as a prefix of some suffix), the unanchored search succeeds. -/
theorem searchAux_some_of_matchAt (p : IdPattern) :
    ∀ (j s : List Char) (r : Option (List Char) × Option (List Char) × List Char),
      matchSegs p.base p.sys p.segs s = some r →
      ∃ caps, searchAux p (j ++ s) = some caps := by
  intro j
  induction j with
  | nil =>
    intro s r h
    match s with
    | [] => exact ⟨(r.1, r.2.1), by simp [searchAux, h]⟩
    | c :: t => exact ⟨(r.1, r.2.1), by simp [searchAux, h]⟩
  | cons c j ih =>
    intro s r h
    rcases hm : matchSegs p.base p.sys p.segs (c :: (j ++ s)) with _ | r2
    · rcases ih s r h with ⟨caps, hcaps⟩
      exact ⟨caps, by simp [searchAux, hm, hcaps]⟩
    · exact ⟨(r2.1, r2.2.1), by simp [searchAux, hm]⟩

/-- The unanchored search returns the captures of the leftmost match: if no
earlier start position matches, the captures come from the match at the
junk/core boundary. -/
theorem searchAux_leftmost (p : IdPattern) :
    ∀ (j s : List Char) (b y : Option (List Char)) (rest : List Char),
      (∀ i ∈ List.range j.length,
        matchSegs p.base p.sys p.segs ((j ++ s).drop i) = none) →
      matchSegs p.base p.sys p.segs s = some (b, y, rest) →
      searchAux p (j ++ s) = some (b, y) := by
  intro j
  induction j with
  | nil =>
    intro s b y rest _ h
    match s with
    | [] => simp [searchAux, h]
    | c :: t => simp [searchAux, h]
  | cons c j ih =>
    intro s b y rest hnone h
    have h0 : matchSegs p.base p.sys p.segs (c :: (j ++ s)) = none := by
      have := hnone 0 (by simp)
      simpa using this
    have hshift : ∀ i ∈ List.range j.length,
        matchSegs p.base p.sys p.segs ((j ++ s).drop i) = none := by
      intro i hi
      have := hnone (i + 1) (by simp at hi ⊢; omega)
      simpa using this
    simp only [List.cons_append, searchAux, List.append_eq, h0]
    exact ih s b y rest hshift h

/-! ## Claim theorems -/

/-- C2: building the identifier pattern from a well-formed template
`pre{base}mid{doc_number}post` (no brace in the literal parts) escapes
every literal character into a literal segment and replaces exactly the
two placeholders by the `base` and `system_number` capture groups; the
resulting pattern matches an identifier in full exactly when it is the
substituted template around some conforming system number `s`, and then
recovers exactly the substituted `base` and `s` in its two captures. -/
theorem C2_identifier_template_roundtrip
    (pre mid post base s : List Char) (sp : SysPat)
    (hpre : ∀ c ∈ pre, c ≠ '{') (hmid : ∀ c ∈ mid, c ≠ '{')
    (hpost : ∀ c ∈ post, c ≠ '{')
    (hs : s.length = sp.len) (hc : s.all sp.cls = true) :
    (buildParseIdentifierPattern (pre ++ baseTok ++ mid ++ docTok ++ post)
        base sp).segs =
      pre.map Seg.lit ++ Seg.baseG ::
        (mid.map Seg.lit ++ Seg.sysG :: post.map Seg.lit)
    ∧ matchSegs base sp
        (buildParseIdentifierPattern (pre ++ baseTok ++ mid ++ docTok ++ post)
          base sp).segs
        (pre ++ (base ++ (mid ++ (s ++ post)))) = some (some base, some s, [])
    ∧ ∀ (ident : List Char) (b y : Option (List Char)),
        matchSegs base sp
          (buildParseIdentifierPattern
            (pre ++ baseTok ++ mid ++ docTok ++ post) base sp).segs
          ident = some (b, y, []) →
        ∃ s', ident = pre ++ (base ++ (mid ++ (s' ++ post))) ∧
          b = some base ∧ y = some s' ∧
          s'.length = sp.len ∧ s'.all sp.cls = true := by
  have hb := build_segs pre mid post base sp hpre hmid hpost
  refine ⟨hb, ?_, ?_⟩
  · rw [hb]
    exact matchSegs_template pre mid post base s sp hs hc
  · intro ident b y h
    rw [hb] at h
    exact matchSegs_template_inv pre mid post base ident sp b y h

/-- C2 witness: the spec's own example, template
`oai:example.org:{base}-{doc_number}`, base `MZK01`, pattern `\d{9}`,
identifier `oai:example.org:MZK01-000960080`. -/
theorem C2_identifier_template_roundtrip_witness :
    (buildParseIdentifierPattern
        ("oai:example.org:".data ++ baseTok ++ "-".data ++ docTok ++ "".data)
        "MZK01".data ⟨9, Char.isDigit⟩).segs =
      "oai:example.org:".data.map Seg.lit ++ Seg.baseG ::
        ("-".data.map Seg.lit ++ Seg.sysG :: "".data.map Seg.lit)
    ∧ matchSegs "MZK01".data ⟨9, Char.isDigit⟩
        (buildParseIdentifierPattern
          ("oai:example.org:".data ++ baseTok ++ "-".data ++ docTok ++ "".data)
          "MZK01".data ⟨9, Char.isDigit⟩).segs
        ("oai:example.org:".data ++ ("MZK01".data ++ ("-".data ++
          ("000960080".data ++ "".data)))) =
        some (some "MZK01".data, some "000960080".data, [])
    ∧ ∀ (ident : List Char) (b y : Option (List Char)),
        matchSegs "MZK01".data ⟨9, Char.isDigit⟩
          (buildParseIdentifierPattern
            ("oai:example.org:".data ++ baseTok ++ "-".data ++ docTok ++ "".data)
            "MZK01".data ⟨9, Char.isDigit⟩).segs
          ident = some (b, y, []) →
        ∃ s', ident = "oai:example.org:".data ++ ("MZK01".data ++ ("-".data ++
            (s' ++ "".data))) ∧
          b = some "MZK01".data ∧ y = some s' ∧
          s'.length = 9 ∧ s'.all Char.isDigit = true :=
  C2_identifier_template_roundtrip "oai:example.org:".data "-".data "".data
    "MZK01".data "000960080".data ⟨9, Char.isDigit⟩
    (by decide) (by decide) (by decide) (by decide) (by decide)

/-- C1: for a harvested record fragment whose header is present and whose
identifier matches the configured pattern: a header status `deleted` yields
status `Deleted` with no record; a successfully parsed body yields `Active`
with the parsed record; a failing body parse yields `Failed` with no
record; and every yielded result has a record if and only if its status is
`Active`. -/
theorem C1_record_status_cases (p : IdPattern) (f : OaiRecordFragment)
    (h : OaiHeader) (ident : List Char) (b y : Option (List Char))
    (hh : f.header = some h) (hid : h.identifierText = some (some ident))
    (hsearch : searchAux p ident = some (b, y)) :
    (h.status = some "deleted" →
      processRecord p f = Except.ok
        { base := b, system_number := y, status := RecordStatus.Deleted })
    ∧ (h.status ≠ some "deleted" → ∀ m, f.marcParse = Except.ok m →
      processRecord p f = Except.ok
        { base := b, system_number := y, status := RecordStatus.Active,
          record := some m })
    ∧ (h.status ≠ some "deleted" → ∀ e, f.marcParse = Except.error e →
      processRecord p f = Except.ok
        { base := b, system_number := y, status := RecordStatus.Failed })
    ∧ (∀ (f' : OaiRecordFragment) (r : ListRecordResponse),
        processRecord p f' = Except.ok r →
        (r.record.isSome = true ↔ r.status = RecordStatus.Active)) := by
  refine ⟨?_, ?_, ?_, ?_⟩
  · intro hdel
    simp [processRecord, hh, hid, hsearch, hdel]
  · intro hdel m hm
    simp [processRecord, hh, hid, hsearch, hdel, hm]
  · intro hdel e he
    simp [processRecord, hh, hid, hsearch, hdel, he]
  · intro f' r hr
    simp only [processRecord] at hr
    split at hr
    · exact absurd hr (by simp)
    · split at hr
      · exact absurd hr (by simp)
      · exact absurd hr (by simp)
      · split at hr
        · exact absurd hr (by simp)
        · rename_i caps
          split at hr
          · rcases hr with ⟨⟩ | hr
            · simp
          · split at hr
            · rcases hr with ⟨⟩ | hr
              · simp
            · rcases hr with ⟨⟩ | hr
              · simp

/-- C1 witness: a deleted-status fragment with a matching identifier is
yielded as `Deleted` with no record (plus the general record-iff-Active
invariant instantiated at this pattern). -/
theorem C1_record_status_cases_witness :
    (some "deleted" = some "deleted" →
      processRecord
        (buildParseIdentifierPattern
          ("oai:example.org:".data ++ baseTok ++ "-".data ++ docTok)
          "MZK01".data ⟨9, Char.isDigit⟩)
        ⟨some ⟨some (some "oai:example.org:MZK01-000960080".data),
          some "deleted"⟩, Except.error "no marc body"⟩ = Except.ok
        ⟨some "MZK01".data, some "000960080".data, RecordStatus.Deleted, none⟩)
    ∧ (some "deleted" ≠ some "deleted" → ∀ m,
        (Except.error "no marc body" : Except String MarcRecord) = Except.ok m →
        processRecord
          (buildParseIdentifierPattern
            ("oai:example.org:".data ++ baseTok ++ "-".data ++ docTok)
            "MZK01".data ⟨9, Char.isDigit⟩)
          ⟨some ⟨some (some "oai:example.org:MZK01-000960080".data),
            some "deleted"⟩, Except.error "no marc body"⟩ = Except.ok
          ⟨some "MZK01".data, some "000960080".data, RecordStatus.Active,
            some m⟩)
    ∧ (some "deleted" ≠ some "deleted" → ∀ e,
        (Except.error "no marc body" : Except String MarcRecord) =
          Except.error e →
        processRecord
          (buildParseIdentifierPattern
            ("oai:example.org:".data ++ baseTok ++ "-".data ++ docTok)
            "MZK01".data ⟨9, Char.isDigit⟩)
          ⟨some ⟨some (some "oai:example.org:MZK01-000960080".data),
            some "deleted"⟩, Except.error "no marc body"⟩ = Except.ok
          ⟨some "MZK01".data, some "000960080".data, RecordStatus.Failed,
            none⟩)
    ∧ (∀ (f' : OaiRecordFragment) (r : ListRecordResponse),
        processRecord
          (buildParseIdentifierPattern
            ("oai:example.org:".data ++ baseTok ++ "-".data ++ docTok)
            "MZK01".data ⟨9, Char.isDigit⟩) f' = Except.ok r →
        (r.record.isSome = true ↔ r.status = RecordStatus.Active)) :=
  C1_record_status_cases
    (buildParseIdentifierPattern
      ("oai:example.org:".data ++ baseTok ++ "-".data ++ docTok)
      "MZK01".data ⟨9, Char.isDigit⟩)
    ⟨some ⟨some (some "oai:example.org:MZK01-000960080".data),
      some "deleted"⟩, Except.error "no marc body"⟩
    ⟨some (some "oai:example.org:MZK01-000960080".data), some "deleted"⟩
    "oai:example.org:MZK01-000960080".data
    (some "MZK01".data) (some "000960080".data)
    rfl rfl (by decide)

/-- C9: identifier matching is unanchored — if the identifier merely
contains a full match of the substituted template as a substring, with
arbitrary junk before and after, the record is not rejected: processing
yields a result, and (when no earlier start position matches) the captures
come from that first matching substring. -/
theorem C9_unanchored_identifier_search (p : IdPattern) (f : OaiRecordFragment)
    (h : OaiHeader) (j m k : List Char) (b y : Option (List Char))
    (hh : f.header = some h)
    (hid : h.identifierText = some (some (j ++ (m ++ k))))
    (hm : matchSegs p.base p.sys p.segs m = some (b, y, [])) :
    (∃ res, processRecord p f = Except.ok res)
    ∧ ((∀ i ∈ List.range j.length,
          matchSegs p.base p.sys p.segs ((j ++ (m ++ k)).drop i) = none) →
        ∃ res, processRecord p f = Except.ok res ∧
          res.base = b ∧ res.system_number = y) := by
  have hmk : matchSegs p.base p.sys p.segs (m ++ k) = some (b, y, k) := by
    simpa using matchSegs_append_right p.base p.sys p.segs m k b y [] hm
  constructor
  · rcases searchAux_some_of_matchAt p j (m ++ k) (b, y, k) hmk
      with ⟨caps, hcaps⟩
    by_cases hdel : h.status = some "deleted"
    · exact ⟨⟨caps.1, caps.2, RecordStatus.Deleted, none⟩,
        by simp [processRecord, hh, hid, hcaps, hdel]⟩
    · rcases hparse : f.marcParse with e | mm
      · exact ⟨⟨caps.1, caps.2, RecordStatus.Failed, none⟩,
          by simp [processRecord, hh, hid, hcaps, hdel, hparse]⟩
      · exact ⟨⟨caps.1, caps.2, RecordStatus.Active, some mm⟩,
          by simp [processRecord, hh, hid, hcaps, hdel, hparse]⟩
  · intro hnone
    have hsearch := searchAux_leftmost p j (m ++ k) b y k hnone hmk
    by_cases hdel : h.status = some "deleted"
    · exact ⟨⟨b, y, RecordStatus.Deleted, none⟩,
        by simp [processRecord, hh, hid, hsearch, hdel], rfl, rfl⟩
    · rcases hparse : f.marcParse with e | mm
      · exact ⟨⟨b, y, RecordStatus.Failed, none⟩,
          by simp [processRecord, hh, hid, hsearch, hdel, hparse], rfl, rfl⟩
      · exact ⟨⟨b, y, RecordStatus.Active, some mm⟩,
          by simp [processRecord, hh, hid, hsearch, hdel, hparse], rfl, rfl⟩

/-- C9 witness: the identifier
`JUNKoai:example.org:MZK01-000960080TRAIL` only contains the substituted
template as a proper substring, yet processing yields a result whose
captures come from that first matching substring. -/
theorem C9_unanchored_identifier_search_witness :
    (∃ res, processRecord
      (buildParseIdentifierPattern
        ("oai:example.org:".data ++ baseTok ++ "-".data ++ docTok)
        "MZK01".data ⟨9, Char.isDigit⟩)
      ⟨some ⟨some (some ("JUNK".data ++
        ("oai:example.org:MZK01-000960080".data ++ "TRAIL".data))),
        none⟩, Except.ok ⟨7⟩⟩ = Except.ok res)
    ∧ ((∀ i ∈ List.range "JUNK".data.length,
          matchSegs "MZK01".data ⟨9, Char.isDigit⟩
            (buildParseIdentifierPattern
              ("oai:example.org:".data ++ baseTok ++ "-".data ++ docTok)
              "MZK01".data ⟨9, Char.isDigit⟩).segs
            (("JUNK".data ++
              ("oai:example.org:MZK01-000960080".data ++ "TRAIL".data)).drop i) =
            none) →
        ∃ res, processRecord
          (buildParseIdentifierPattern
            ("oai:example.org:".data ++ baseTok ++ "-".data ++ docTok)
            "MZK01".data ⟨9, Char.isDigit⟩)
          ⟨some ⟨some (some ("JUNK".data ++
            ("oai:example.org:MZK01-000960080".data ++ "TRAIL".data))),
            none⟩, Except.ok ⟨7⟩⟩ = Except.ok res ∧
          res.base = some "MZK01".data ∧
          res.system_number = some "000960080".data) :=
  C9_unanchored_identifier_search
    (buildParseIdentifierPattern
      ("oai:example.org:".data ++ baseTok ++ "-".data ++ docTok)
      "MZK01".data ⟨9, Char.isDigit⟩)
    ⟨some ⟨some (some ("JUNK".data ++
      ("oai:example.org:MZK01-000960080".data ++ "TRAIL".data))),
      none⟩, Except.ok ⟨7⟩⟩
    ⟨some (some ("JUNK".data ++
      ("oai:example.org:MZK01-000960080".data ++ "TRAIL".data))), none⟩
    "JUNK".data "oai:example.org:MZK01-000960080".data "TRAIL".data
    (some "MZK01".data) (some "000960080".data)
    rfl rfl (by decide)

/-- C3: for any finite server trace consisting of continuing pages followed
by a terminal page (empty batch, or falsy resumption token), the pagination
loop terminates with exactly the concatenation of the per-page results in
page order, issues one request per consumed page — each follow-up request
carrying only the verb and the previous page's resumption token — and
issues no request for the pages after the terminal one. -/
theorem C3_pagination_terminates (p : IdPattern) (params : OaiRequest)
    (good : List OaiPage) (term : OaiPage) (extra : List OaiPage)
    (hgood : ∀ pg ∈ good, contPage p pg) (hterm : termPage p term) :
    runPages p params (good ++ term :: extra) =
      (params :: good.map (fun pg => nextTokenRequest (pageToken pg)),
       (good.map (fun pg => (processRecords p pg.records).1)).flatten
         ++ pageYield p term,
       HarvestOutcome.done) := by
  induction good generalizing params with
  | nil =>
    simp only [List.nil_append, List.map_nil, List.flatten_nil]
    rcases hterm with hrec | ⟨hproc, htok⟩
    · simp [runPages, hrec, pageYield]
    · rcases hrec : term.records.isEmpty with _ | _
      · rcases hpair : processRecords p term.records with ⟨rs, e⟩
        have he : e = none := by rw [hpair] at hproc; exact hproc
        subst he
        rw [tokenDone] at htok
        rcases htok2 : term.resumptionToken with _ | t?
        · simp [runPages, hrec, hpair, htok2, pageYield]
        · rcases t? with _ | t
          · simp [runPages, hrec, hpair, htok2, pageYield]
          · have ht : t = "" := by
              rw [htok2] at htok
              simpa [strTruthy] using htok
            simp [runPages, hrec, hpair, htok2, ht, pageYield]
      · simp [runPages, hrec, pageYield]
  | cons pg good ih =>
    obtain ⟨hne, hproc, htok⟩ := hgood pg (List.mem_cons_self pg good)
    rcases hpair : processRecords p pg.records with ⟨rs, e⟩
    have he : e = none := by rw [hpair] at hproc; exact hproc
    subst he
    rcases htok2 : pg.resumptionToken with _ | t?
    · rw [htok2] at htok; simp [strTruthy] at htok
    · rcases t? with _ | t
      · rw [htok2] at htok; simp [strTruthy] at htok
      · have ht : t ≠ "" := by
          rw [htok2] at htok
          simpa [strTruthy] using htok
        have hrec := ih (nextTokenRequest t)
          (fun q hq => hgood q (List.mem_cons_of_mem pg hq))
        simp [runPages, hne, hpair, htok2, ht, hrec, pageToken, pageYield,
          List.append_assoc]

/-- C3 witness: a continuing page followed by an empty terminal page, with
a further page behind it that is never requested. -/
theorem C3_pagination_terminates_witness :
    runPages samplePat (initParams "SET" none none)
      ([samplePage1] ++ sampleTermPage :: [⟨[], some (some "ignored")⟩]) =
      (initParams "SET" none none ::
        [samplePage1].map (fun pg => nextTokenRequest (pageToken pg)),
       ([samplePage1].map
          (fun pg => (processRecords samplePat pg.records).1)).flatten
         ++ pageYield samplePat sampleTermPage,
       HarvestOutcome.done) :=
  C3_pagination_terminates samplePat (initParams "SET" none none)
    [samplePage1] sampleTermPage [⟨[], some (some "ignored")⟩]
    (by decide) (by decide)

/-- A page whose fragments process cleanly up to a failing fragment yields
exactly the good prefix and then raises the failing fragment's error. -/
theorem processRecords_append_error (p : IdPattern)
    (gs : List OaiRecordFragment) (bad : OaiRecordFragment)
    (rest : List OaiRecordFragment) (e : String)
    (hg : ∀ f ∈ gs, (processRecord p f).isOk = true)
    (hbad : processRecord p bad = Except.error e) :
    processRecords p (gs ++ bad :: rest) =
      (gs.filterMap (fun f => (processRecord p f).toOption), some e) := by
  induction gs with
  | nil => simp [processRecords, hbad]
  | cons f fs ih =>
    have hf := hg f (List.mem_cons_self f fs)
    rcases hpf : processRecord p f with e' | r
    · rw [hpf] at hf; simp [Except.isOk, Except.toBool] at hf
    · simp [processRecords, hpf, ih (fun q hq => hg q (List.mem_cons_of_mem f hq)),
        List.filterMap_cons, Except.toOption]

/-- C4: a record fragment with a missing header, a missing identifier, or
an identifier that fails to match the configured template makes the whole
harvest raise (terminating the lazy sequence with an error, consuming no
further page), and the error is raised only after every record preceding
the offending fragment in the current page has been yielded. -/
theorem C4_protocol_violation_fatal (p : IdPattern) (params : OaiRequest)
    (goodF : List OaiRecordFragment) (bad : OaiRecordFragment)
    (restF : List OaiRecordFragment) (tok : Option (Option String))
    (pages : List OaiPage) (e : String)
    (hg : ∀ f ∈ goodF, (processRecord p f).isOk = true)
    (hbad : processRecord p bad = Except.error e) :
    runPages p params (⟨goodF ++ bad :: restF, tok⟩ :: pages) =
      ([params],
       goodF.filterMap (fun f => (processRecord p f).toOption),
       HarvestOutcome.error e)
    ∧ (∀ f' : OaiRecordFragment, f'.header = none →
        processRecord p f' = Except.error "Record without header found.")
    ∧ (∀ (f' : OaiRecordFragment) (h : OaiHeader), f'.header = some h →
        h.identifierText = some none →
        processRecord p f' = Except.error "Record without identifier found.")
    ∧ (∀ (f' : OaiRecordFragment) (h : OaiHeader) (ident : List Char),
        f'.header = some h → h.identifierText = some (some ident) →
        searchAux p ident = none →
        processRecord p f' = Except.error
          ("Record with invalid identifier found: " ++ String.mk ident)) := by
  refine ⟨?_, ?_, ?_, ?_⟩
  · have hne : (goodF ++ bad :: restF).isEmpty = false := by
      cases goodF <;> simp
    have hproc := processRecords_append_error p goodF bad restF e hg hbad
    simp [runPages, hne, hproc]
  · intro f' hf'
    simp [processRecord, hf']
  · intro f' h hf' hid
    simp [processRecord, hf', hid]
  · intro f' h ident hf' hid hsearch
    simp [processRecord, hf', hid, hsearch]

/-- C4 witness: one good record followed by a fragment whose identifier
does not match the template; the good record is yielded, then the error is
raised, and the rest of the page and the following pages are dropped. -/
theorem C4_protocol_violation_fatal_witness :
    runPages samplePat (initParams "SET" none none)
      (⟨[sampleFrag] ++ ⟨some ⟨some (some "bogus".data), none⟩,
          Except.ok ⟨2⟩⟩ :: [sampleFrag], some (some "tok1")⟩ :: [⟨[], none⟩]) =
      ([initParams "SET" none none],
       [sampleFrag].filterMap
         (fun f => (processRecord samplePat f).toOption),
       HarvestOutcome.error
         ("Record with invalid identifier found: " ++ String.mk "bogus".data))
    ∧ (∀ f' : OaiRecordFragment, f'.header = none →
        processRecord samplePat f' =
          Except.error "Record without header found.")
    ∧ (∀ (f' : OaiRecordFragment) (h : OaiHeader), f'.header = some h →
        h.identifierText = some none →
        processRecord samplePat f' =
          Except.error "Record without identifier found.")
    ∧ (∀ (f' : OaiRecordFragment) (h : OaiHeader) (ident : List Char),
        f'.header = some h → h.identifierText = some (some ident) →
        searchAux samplePat ident = none →
        processRecord samplePat f' = Except.error
          ("Record with invalid identifier found: " ++ String.mk ident)) :=
  C4_protocol_violation_fatal samplePat (initParams "SET" none none)
    [sampleFrag] ⟨some ⟨some (some "bogus".data), none⟩, Except.ok ⟨2⟩⟩
    [sampleFrag] (some (some "tok1")) [⟨[], none⟩]
    ("Record with invalid identifier found: " ++ String.mk "bogus".data)
    (by decide) (by rfl)

/-- C8: `list_records` iterates the configured sets in declared order and
concatenates the per-set outputs with no reordering or deduplication: every
result of an earlier set precedes every result of a later set. -/
theorem C8_set_order_concatenation (p : IdPattern) (fromD toD : Option String)
    (server : String → List OaiPage) (sets : List String)
    (h : ∀ s ∈ sets,
      (list_records_in_set p s fromD toD (server s)).2.2 = HarvestOutcome.done) :
    list_records p fromD toD server sets =
      ((sets.map
          (fun s => (list_records_in_set p s fromD toD (server s)).2.1)).flatten,
       HarvestOutcome.done) := by
  induction sets with
  | nil => rfl
  | cons s ss ih =>
    have hs := h s (List.mem_cons_self s ss)
    have hss := ih (fun q hq => h q (List.mem_cons_of_mem s hq))
    simp [list_records, hs, hss]

/-- C8 witness: two sets, the first with one record page, the second with
an empty page; the output is the first set's results followed by the
second's. -/
theorem C8_set_order_concatenation_witness :
    list_records samplePat none none
      (fun s => if s = "S1" then [⟨[sampleFrag], none⟩] else [⟨[], none⟩])
      ["S1", "S2"] =
      ((["S1", "S2"].map
          (fun s => (list_records_in_set samplePat s none none
            ((fun s => if s = "S1" then [⟨[sampleFrag], none⟩]
              else [⟨[], none⟩]) s)).2.1)).flatten,
       HarvestOutcome.done) :=
  C8_set_order_concatenation samplePat none none
    (fun s => if s = "S1" then [⟨[sampleFrag], none⟩] else [⟨[], none⟩])
    ["S1", "S2"] (by decide)

/-! ## Lemmas about the X-Server fetch windows -/

theorem fetchWindows_zero (ps : Nat) (hps : 0 < ps) :
    fetchWindows ps 0 = [] := by
  simp [fetchWindows, pythonRange, Nat.div_eq_of_lt (by omega : ps - 1 < ps)]

theorem fetchWindows_small (ps n : Nat) (h0 : 0 < n) (hn : n ≤ ps) :
    fetchWindows ps n = [(1, n)] := by
  have hdiv : (n + ps - 1) / ps = 1 := by
    apply Nat.div_eq_of_lt_le <;> omega
  simp [fetchWindows, pythonRange, Nat.sub_zero, hdiv, List.range_succ,
    List.range_zero, Nat.min_eq_right hn]

theorem fetchWindows_step (ps n : Nat) (hps : 0 < ps) (hn : ps < n) :
    fetchWindows ps n =
      (1, ps) :: (fetchWindows ps (n - ps)).map
        (fun w => (w.1 + ps, w.2 + ps)) := by
  have hdiv : (n + ps - 1) / ps = (n - ps + ps - 1) / ps + 1 := by
    have h1 : n + ps - 1 = ((n - ps) + ps - 1) + ps := by omega
    rw [h1, Nat.add_div_right _ hps]
  have hmin : ∀ a : Nat, min a (n - ps) + ps = min (a + ps) n := by
    intro a
    rcases Nat.le_total a (n - ps) with hle | hle
    · rw [Nat.min_eq_left hle, Nat.min_eq_left (by omega)]
    · rw [Nat.min_eq_right hle, Nat.min_eq_right (by omega),
        Nat.sub_add_cancel (by omega)]
  simp only [fetchWindows, pythonRange, Nat.sub_zero, hdiv,
    List.range_succ_eq_map, List.map_cons, List.map_map, List.cons.injEq]
  refine ⟨?_, ?_⟩
  · simp [Nat.min_eq_left (show ps ≤ n by omega)]
  · apply List.map_congr_left
    intro i _
    simp only [Function.comp, Nat.zero_add, Prod.mk.injEq]
    refine ⟨?_, ?_⟩
    · simp [Nat.succ_mul]
      omega
    · rw [hmin (i * ps + ps)]
      congr 1
      simp [Nat.succ_mul]

/-- The fetch windows of `find_system_numbers`, each blown up to the list
of indices it covers, concatenate (shifted by `c`) to the full index range:
the windows partition `[1, n]` exactly once, in order. -/
theorem fetchWindows_partition_shift (ps : Nat) (hps : 0 < ps) :
    ∀ (n c : Nat),
      ((fetchWindows ps n).map
        (fun w => List.range' (w.1 + c) (w.2 + 1 - w.1))).flatten =
        List.range' (1 + c) n := by
  intro n
  induction n using Nat.strong_induction_on with
  | _ n ih =>
    intro c
    rcases Nat.eq_zero_or_pos n with h0 | h0
    · subst h0
      simp [fetchWindows_zero ps hps]
    · rcases Nat.lt_or_ge ps n with hlt | hge
      · rw [fetchWindows_step ps n hps hlt]
        simp only [List.map_cons, List.flatten_cons, List.map_map]
        have hhead : List.range' ((1, ps).1 + c) ((1, ps).2 + 1 - (1, ps).1) =
            List.range' (1 + c) ps := by simp
        rw [hhead]
        have hrw : ((fetchWindows ps (n - ps)).map
            ((fun w => List.range' (w.1 + c) (w.2 + 1 - w.1)) ∘
              (fun w => (w.1 + ps, w.2 + ps)))).flatten =
            ((fetchWindows ps (n - ps)).map
              (fun w => List.range' (w.1 + (ps + c)) (w.2 + 1 - w.1))).flatten := by
          congr 1
          apply List.map_congr_left
          intro w _
          simp only [Function.comp]
          congr 1
          · omega
          · omega
        rw [hrw, ih (n - ps) (by omega) (ps + c)]
        have hr := List.range'_append (1 + c) ps (n - ps) 1
        simp only [Nat.one_mul, Nat.mul_one] at hr
        rw [show 1 + (ps + c) = 1 + c + ps by omega, hr,
          show n - ps + ps = n by omega]
      · rw [fetchWindows_small ps n h0 hge]
        simp only [List.map_cons, List.map_nil, List.flatten_cons,
          List.flatten_nil, List.append_nil]
        congr 1

/-- Each fetch window has size `page_size`, clipped at `total_count`. -/
theorem fetchWindows_clip (ps n : Nat) (hps : 0 < ps) :
    ∀ w ∈ fetchWindows ps n, w.2 + 1 - w.1 = min ps (n + 1 - w.1) := by
  intro w hw
  simp only [fetchWindows, pythonRange, Nat.sub_zero, List.map_map,
    List.mem_map, List.mem_range] at hw
  rcases hw with ⟨i, hi, hwi⟩
  simp only [Function.comp, Nat.zero_add] at hwi
  subst hwi
  have h2 : (i + 1) * ps ≤ n + ps - 1 :=
    (Nat.le_div_iff_mul_le hps).mp hi
  have h3 : i * ps + ps ≤ n + ps - 1 := by
    rw [Nat.add_mul, Nat.one_mul] at h2
    exact h2
  have hq : i * ps < n := by omega
  rcases Nat.le_total (i * ps + ps) n with hle | hle
  · rw [Nat.min_eq_left hle, Nat.min_eq_left (by omega)]
    omega
  · rw [Nat.min_eq_right hle, Nat.min_eq_right (by omega)]

theorem fetchLoop_results (server : XServer) (setNum : Option String) :
    ∀ (ws : List (Nat × Nat)) (st : XState),
      (fetchLoop server setNum ws st).2.2 =
        (ws.map (fun w => (server.fetchResp w.1 w.2).docNumbers)).flatten := by
  intro ws
  induction ws with
  | nil => intro st; rfl
  | cons w ws ih => intro st; simp [fetchLoop, fetch_results, ih]

theorem fetchLoop_requests (server : XServer) (setNum : Option String) :
    ∀ (ws : List (Nat × Nat)) (st : XState),
      (fetchLoop server setNum ws st).1.filterMap presentWindow = ws := by
  intro ws
  induction ws with
  | nil => intro st; rfl
  | cons w ws ih =>
    intro st
    simp [fetchLoop, fetch_results, presentWindow, ih, List.filterMap_cons]

/-- C5: for every `total_count` reported by the search phase, the fetch
windows are consecutive 1-based inclusive windows of size `page_size`
(final window clipped) that partition `[1, total_count]` exactly once, in
order; `find_system_numbers` issues exactly one `present` request per
window, after the single `find` request, and yields the fetched system
numbers concatenated in window order. -/
theorem C5_fetch_window_partition (ps n : Nat) (hps : 0 < ps)
    (base field value : String) (server : XServer)
    (hok : strTruthy server.searchResp.sessionId = true)
    (hn : server.searchResp.noRecords.getD 0 = n) :
    ((fetchWindows ps n).map
      (fun w => List.range' w.1 (w.2 + 1 - w.1))).flatten = List.range' 1 n
    ∧ (∀ w ∈ fetchWindows ps n, w.2 + 1 - w.1 = min ps (n + 1 - w.1))
    ∧ (find_system_numbers ps base field value server).2 =
        Except.ok ((fetchWindows ps n).map
          (fun w => (server.fetchResp w.1 w.2).docNumbers)).flatten
    ∧ (find_system_numbers ps base field value server).1.filterMap
        presentWindow = fetchWindows ps n
    ∧ (find_system_numbers ps base field value server).1.head? =
        some (XRequest.search base field value) := by
  have hpart := fetchWindows_partition_shift ps hps n 0
  have hpart' : ((fetchWindows ps n).map
      (fun w => List.range' w.1 (w.2 + 1 - w.1))).flatten = List.range' 1 n := by
    rw [← hpart]
    exact rfl
  refine ⟨hpart', fetchWindows_clip ps n hps, ?_, ?_, ?_⟩
  · simp [find_system_numbers, xSearch, hok, hn,
      fetchLoop_results server server.searchResp.setNumber (fetchWindows ps n)]
  · simp [find_system_numbers, xSearch, hok, hn, List.filterMap_cons,
      presentWindow, fetchLoop_requests server server.searchResp.setNumber
        (fetchWindows ps n)]
  · simp [find_system_numbers, xSearch, hok, hn]

/-- C5 witness: `total_count = 25`, `page_size = 10` produce the windows
`(1,10), (11,20), (21,25)` covering `[1, 25]` exactly once, and the spec's
conclusion holds for a concrete server. -/
theorem C5_fetch_window_partition_witness :
    ((fetchWindows 10 25).map
      (fun w => List.range' w.1 (w.2 + 1 - w.1))).flatten = List.range' 1 25
    ∧ (∀ w ∈ fetchWindows 10 25, w.2 + 1 - w.1 = min 10 (25 + 1 - w.1))
    ∧ (find_system_numbers 10 "B" "SYS" "X"
        ⟨⟨some "sid", none, some "SET42", some 25⟩,
          fun a _ => ⟨some "sid", [toString a]⟩⟩).2 =
        Except.ok ((fetchWindows 10 25).map
          (fun w => ((⟨⟨some "sid", none, some "SET42", some 25⟩,
            fun a _ => ⟨some "sid", [toString a]⟩⟩ : XServer).fetchResp
              w.1 w.2).docNumbers)).flatten
    ∧ (find_system_numbers 10 "B" "SYS" "X"
        ⟨⟨some "sid", none, some "SET42", some 25⟩,
          fun a _ => ⟨some "sid", [toString a]⟩⟩).1.filterMap
        presentWindow = fetchWindows 10 25
    ∧ (find_system_numbers 10 "B" "SYS" "X"
        ⟨⟨some "sid", none, some "SET42", some 25⟩,
          fun a _ => ⟨some "sid", [toString a]⟩⟩).1.head? =
        some (XRequest.search "B" "SYS" "X") :=
  C5_fetch_window_partition 10 25 (by decide) "B" "SYS" "X"
    ⟨⟨some "sid", none, some "SET42", some 25⟩,
      fun a _ => ⟨some "sid", [toString a]⟩⟩ (by decide) (by decide)

/-- C6 counterexample: a server reporting `total_count = 1` whose fetch of
window `(1, 1)` returns no `doc_number` makes
`get_one_or_none_system_number` return `none`, refuting "returns a
(non-none) value if and only if `total_count == 1`" as stated. -/
theorem C6_one_or_none_counterexample :
    ¬ ((∃ x, (get_one_or_none_system_number "B" "SYS" "X"
        ⟨⟨some "sid", none, some "SET", some 1⟩,
          fun _ _ => ⟨some "sid", []⟩⟩).2 = Except.ok (some x)) ↔
      ((⟨⟨some "sid", none, some "SET", some 1⟩,
          fun _ _ => ⟨some "sid", []⟩⟩ :
        XServer).searchResp.noRecords.getD 0 = 1)) := by
  intro hiff
  rcases hiff.mpr rfl with ⟨x, hx⟩
  have hx' : (Except.ok (none : Option String) :
      Except String (Option String)) = Except.ok (some x) := hx
  exact Option.noConfusion (Except.ok.inj hx')

/-- C6 (amended): `get_one_or_none_system_number` returns a value only if
`total_count == 1`; it returns `none` whenever `total_count ≠ 1`; and when
`total_count == 1` it returns the first fetched value of window `(1, 1)` —
which is `none` if that fetch yields nothing. -/
theorem C6_get_one_or_none (base field value : String) (server : XServer)
    (hok : strTruthy server.searchResp.sessionId = true) :
    (∀ x, (get_one_or_none_system_number base field value server).2 =
        Except.ok (some x) → server.searchResp.noRecords.getD 0 = 1)
    ∧ (server.searchResp.noRecords.getD 0 ≠ 1 →
        (get_one_or_none_system_number base field value server).2 =
          Except.ok none)
    ∧ (server.searchResp.noRecords.getD 0 = 1 →
        (get_one_or_none_system_number base field value server).2 =
          Except.ok (server.fetchResp 1 1).docNumbers.head?) := by
  refine ⟨?_, ?_, ?_⟩
  · intro x hx
    by_contra hne
    simp [get_one_or_none_system_number, xSearch, hok, hne] at hx
  · intro hne
    simp [get_one_or_none_system_number, xSearch, hok, hne]
  · intro h1
    simp [get_one_or_none_system_number, xSearch, hok, h1, fetch_results]

/-- C6 witness: with `total_count = 1` and a fetch returning one document
number, that number is returned; with `total_count ≠ 1` nothing is. -/
theorem C6_get_one_or_none_witness :
    (∀ x, (get_one_or_none_system_number "B" "SYS" "X"
        ⟨⟨some "sid", none, some "SET", some 1⟩,
          fun _ _ => ⟨some "sid", ["000000001"]⟩⟩).2 =
        Except.ok (some x) →
        (⟨⟨some "sid", none, some "SET", some 1⟩,
          fun _ _ => ⟨some "sid", ["000000001"]⟩⟩ :
            XServer).searchResp.noRecords.getD 0 = 1)
    ∧ ((⟨⟨some "sid", none, some "SET", some 1⟩,
          fun _ _ => ⟨some "sid", ["000000001"]⟩⟩ :
            XServer).searchResp.noRecords.getD 0 ≠ 1 →
        (get_one_or_none_system_number "B" "SYS" "X"
          ⟨⟨some "sid", none, some "SET", some 1⟩,
            fun _ _ => ⟨some "sid", ["000000001"]⟩⟩).2 = Except.ok none)
    ∧ ((⟨⟨some "sid", none, some "SET", some 1⟩,
          fun _ _ => ⟨some "sid", ["000000001"]⟩⟩ :
            XServer).searchResp.noRecords.getD 0 = 1 →
        (get_one_or_none_system_number "B" "SYS" "X"
          ⟨⟨some "sid", none, some "SET", some 1⟩,
            fun _ _ => ⟨some "sid", ["000000001"]⟩⟩).2 =
          Except.ok ((⟨⟨some "sid", none, some "SET", some 1⟩,
            fun _ _ => ⟨some "sid", ["000000001"]⟩⟩ :
              XServer).fetchResp 1 1).docNumbers.head?) :=
  C6_get_one_or_none "B" "SYS" "X"
    ⟨⟨some "sid", none, some "SET", some 1⟩,
      fun _ _ => ⟨some "sid", ["000000001"]⟩⟩ (by decide)

/-- The first fetch window, when there is anything to fetch. -/
theorem fetchWindows_head (ps n : Nat) (hps : 0 < ps) (h0 : 0 < n) :
    ∃ rest, fetchWindows ps n = (1, min ps n) :: rest := by
  rcases Nat.lt_or_ge ps n with hlt | hge
  · rw [fetchWindows_step ps n hps hlt, Nat.min_eq_left (by omega)]
    exact ⟨_, rfl⟩
  · rw [fetchWindows_small ps n h0 hge, Nat.min_eq_right hge]
    exact ⟨[], rfl⟩

/-- C7: the search phase fails hard when the response carries no non-empty
session id (with the `h1` error text when present, a generic message
otherwise); on success it captures `(set_number, total_count)` and stores
the session id as sticky state, which the subsequent fetch requests carry. -/
theorem C7_search_session_contract (base field value : String)
    (server : XServer) :
    (server.searchResp.sessionId = none ∨ server.searchResp.sessionId = some "" →
      ∀ t, server.searchResp.h1 = some t → t ≠ "" →
        (xSearch base field value server).2 = Except.error t)
    ∧ (server.searchResp.sessionId = none ∨
        server.searchResp.sessionId = some "" →
        server.searchResp.h1 = none ∨ server.searchResp.h1 = some "" →
        (xSearch base field value server).2 =
          Except.error "Unexpected response")
    ∧ (∀ sid, server.searchResp.sessionId = some sid → sid ≠ "" →
        (xSearch base field value server).2 =
          Except.ok (⟨some sid⟩, server.searchResp.setNumber,
            server.searchResp.noRecords.getD 0))
    ∧ (∀ (sid : String) (setNum : Option String) (a b : Nat),
        (fetch_results server ⟨some sid⟩ setNum a b).1 =
          XRequest.present (some sid) setNum a b)
    ∧ (∀ (sid : String) (ps n : Nat), 0 < ps →
        server.searchResp.sessionId = some sid → sid ≠ "" →
        server.searchResp.noRecords.getD 0 = n → 0 < n →
        (find_system_numbers ps base field value server).1.tail.head? =
          some (XRequest.present (some sid) server.searchResp.setNumber 1
            (min ps n))) := by
  refine ⟨?_, ?_, ?_, ?_, ?_⟩
  · intro hsid t ht htne
    rcases hsid with h | h <;>
      simp [xSearch, strTruthy, h, ht, htne]
  · intro hsid hh1
    rcases hsid with h | h <;> rcases hh1 with h1 | h1 <;>
      simp [xSearch, strTruthy, h, h1]
  · intro sid hsid hne
    have hst : strTruthy (some sid) = true := by simp [strTruthy, hne]
    simp [xSearch, hsid, hst]
  · intro sid setNum a b
    rfl
  · intro sid ps n hps hsid hne hn h0
    have hst : strTruthy (some sid) = true := by simp [strTruthy, hne]
    rcases fetchWindows_head ps n hps h0 with ⟨rest, hw⟩
    simp [find_system_numbers, xSearch, hsid, hst, hn, hw, fetchLoop,
      fetch_results]

/-- C7 witness: a missing session id raises the `h1` text, a missing `h1`
the generic message; a present session id is captured and carried by the
first fetch request. -/
theorem C7_search_session_contract_witness :
    (xSearch "B" "SYS" "X"
      ⟨⟨none, some "error text", none, none⟩, fun _ _ => ⟨none, []⟩⟩).2 =
        Except.error "error text"
    ∧ (xSearch "B" "SYS" "X"
        ⟨⟨none, none, none, none⟩, fun _ _ => ⟨none, []⟩⟩).2 =
        Except.error "Unexpected response"
    ∧ (xSearch "B" "SYS" "X"
        ⟨⟨some "sid", none, some "SET", some 5⟩,
          fun _ _ => ⟨some "sid", []⟩⟩).2 =
        Except.ok (⟨some "sid"⟩, some "SET", 5)
    ∧ (find_system_numbers 10 "B" "SYS" "X"
        ⟨⟨some "sid", none, some "SET", some 5⟩,
          fun _ _ => ⟨some "sid", []⟩⟩).1.tail.head? =
        some (XRequest.present (some "sid") (some "SET") 1 (min 10 5)) :=
  ⟨(C7_search_session_contract "B" "SYS" "X"
      ⟨⟨none, some "error text", none, none⟩, fun _ _ => ⟨none, []⟩⟩).1
      (Or.inl rfl) "error text" rfl (by decide),
   (C7_search_session_contract "B" "SYS" "X"
      ⟨⟨none, none, none, none⟩, fun _ _ => ⟨none, []⟩⟩).2.1
      (Or.inl rfl) (Or.inl rfl),
   (C7_search_session_contract "B" "SYS" "X"
      ⟨⟨some "sid", none, some "SET", some 5⟩,
        fun _ _ => ⟨some "sid", []⟩⟩).2.2.1 "sid" rfl (by decide),
   (C7_search_session_contract "B" "SYS" "X"
      ⟨⟨some "sid", none, some "SET", some 5⟩,
        fun _ _ => ⟨some "sid", []⟩⟩).2.2.2.2 "sid" 10 5 (by decide) rfl
      (by decide) rfl (by decide)⟩

/-- C10: a search reporting `total_count = 0` makes `find_system_numbers`
yield nothing and issue no `present` request after the single `find`
request; `get_one_or_none_system_number` issues no `present` request
whenever `total_count ≠ 1`. -/
theorem C10_no_fetch_without_results (ps : Nat) (hps : 0 < ps)
    (base field value : String) (server : XServer)
    (hok : strTruthy server.searchResp.sessionId = true) :
    (server.searchResp.noRecords.getD 0 = 0 →
      find_system_numbers ps base field value server =
        ([XRequest.search base field value], Except.ok []))
    ∧ (server.searchResp.noRecords.getD 0 ≠ 1 →
      get_one_or_none_system_number base field value server =
        ([XRequest.search base field value], Except.ok none)) := by
  constructor
  · intro h0
    simp [find_system_numbers, xSearch, hok, h0,
      fetchWindows_zero ps hps, fetchLoop]
  · intro hne1
    simp [get_one_or_none_system_number, xSearch, hok, hne1]

/-- C10 witness: a server reporting no matches is asked exactly one
question. -/
theorem C10_no_fetch_without_results_witness :
    ((⟨⟨some "sid", none, some "SET", none⟩, fun _ _ => ⟨some "sid", []⟩⟩ :
        XServer).searchResp.noRecords.getD 0 = 0 →
      find_system_numbers 10 "B" "SYS" "X"
        ⟨⟨some "sid", none, some "SET", none⟩,
          fun _ _ => ⟨some "sid", []⟩⟩ =
        ([XRequest.search "B" "SYS" "X"], Except.ok []))
    ∧ ((⟨⟨some "sid", none, some "SET", none⟩, fun _ _ => ⟨some "sid", []⟩⟩ :
        XServer).searchResp.noRecords.getD 0 ≠ 1 →
      get_one_or_none_system_number "B" "SYS" "X"
        ⟨⟨some "sid", none, some "SET", none⟩,
          fun _ _ => ⟨some "sid", []⟩⟩ =
        ([XRequest.search "B" "SYS" "X"], Except.ok none)) :=
  C10_no_fetch_without_results 10 (by decide) "B" "SYS" "X"
    ⟨⟨some "sid", none, some "SET", none⟩, fun _ _ => ⟨some "sid", []⟩⟩
    (by decide)

end AlephNought
